import Mathlib

/-!
Shallow embedding of the vision-cut image-editing pipeline (src/App.js).

Numeric values that the JavaScript code manipulates exactly (coordinates,
scale factors, filter percentages, gradient alphas) are modelled as
rationals; the one square root in the vignette radius formula is modelled
over the reals.
-/

namespace VisionCut

/-- Crop rectangle as produced by the crop widget: four numeric fields and
a unit tag ("%" or "px").  Mirrors the `completedCrop` objects consumed by
`handleExport` in App.js. -/
structure CropRect where
  x : ℚ
  y : ℚ
  width : ℚ
  height : ℚ
  unit : String
deriving DecidableEq, Repr

/-- Loaded image with its decoded (natural) size and rendered (displayed)
size, mirroring the properties `handleExport` reads from `imgRef.current`. -/
structure ImageHandle where
  naturalWidth : ℚ
  naturalHeight : ℚ
  width : ℚ
  height : ℚ
deriving DecidableEq, Repr

/-- Resolved source region in natural-pixel units: the four source
arguments passed to `ctx.drawImage` in `handleExport`. -/
structure SourceRegion where
  x : ℚ
  y : ℚ
  width : ℚ
  height : ℚ
deriving DecidableEq, Repr

/-- App.js line 99: `scaleX = image.naturalWidth / image.width`. -/
def scaleX (image : ImageHandle) : ℚ := image.naturalWidth / image.width

/-- App.js line 100: `scaleY = image.naturalHeight / image.height`. -/
def scaleY (image : ImageHandle) : ℚ := image.naturalHeight / image.height

/-- App.js line 103: `isCropValid = completedCrop && completedCrop.width > 0
&& completedCrop.height > 0`. -/
def isCropValid (completedCrop : Option CropRect) : Bool :=
  match completedCrop with
  | none => false
  | some c => c.width > 0 && c.height > 0

/-- App.js lines 105-108: the four ternaries computing `sourceX`,
`sourceY`, `sourceWidth`, `sourceHeight` from the completed crop and the
per-axis scale factors, falling back to the full natural image when the
crop is absent or has non-positive width or height. -/
def resolveSourceRegion (image : ImageHandle) (completedCrop : Option CropRect) :
    SourceRegion :=
  if isCropValid completedCrop then
    match completedCrop with
    | some c =>
        { x := c.x * scaleX image
          y := c.y * scaleY image
          width := c.width * scaleX image
          height := c.height * scaleY image }
    | none =>
        { x := 0, y := 0, width := image.naturalWidth, height := image.naturalHeight }
  else
    { x := 0, y := 0, width := image.naturalWidth, height := image.naturalHeight }

/-- App.js line 110: `canvas.width = Math.floor(sourceWidth)`. -/
def exportCanvasWidth (image : ImageHandle) (completedCrop : Option CropRect) : ℤ :=
  ⌊(resolveSourceRegion image completedCrop).width⌋

/-- App.js line 111: `canvas.height = Math.floor(sourceHeight)`. -/
def exportCanvasHeight (image : ImageHandle) (completedCrop : Option CropRect) : ℤ :=
  ⌊(resolveSourceRegion image completedCrop).height⌋

/-- The five tonal parameters held in the `adj` state (DEFAULT_ADJ shape). -/
structure AdjustmentSet where
  brightness : ℚ
  contrast : ℚ
  saturation : ℚ
  temperature : ℚ
  vignette : ℚ
deriving DecidableEq, Repr

/-- App.js line 115: `sepia = temperature > 0 ? temperature : 0`. -/
def exportSepia (adj : AdjustmentSet) : ℚ :=
  if adj.temperature > 0 then adj.temperature else 0

/-- App.js line 116: `hue = temperature < 0 ? temperature * 1.5 : 0`. -/
def exportHue (adj : AdjustmentSet) : ℚ :=
  if adj.temperature < 0 then adj.temperature * 1.5 else 0

/-- One component of a CSS filter expression, tagged by filter function. -/
inductive FilterComponent where
  | brightness (v : ℚ)
  | contrast (v : ℚ)
  | saturate (v : ℚ)
  | sepia (v : ℚ)
  | hueRotate (deg : ℚ)
deriving DecidableEq, Repr

/-- App.js line 118: the ordered filter expression assigned to
`ctx.filter` before drawing the export. -/
def exportFilter (adj : AdjustmentSet) : List FilterComponent :=
  [ .brightness adj.brightness
  , .contrast adj.contrast
  , .saturate adj.saturation
  , .sepia (exportSepia adj)
  , .hueRotate (exportHue adj) ]

/-- App.js line 226: the ordered filter expression assigned inline to the
preview image element's `style.filter`, with its own copies of the
temperature ternaries. -/
def previewFilter (adj : AdjustmentSet) : List FilterComponent :=
  [ .brightness adj.brightness
  , .contrast adj.contrast
  , .saturate adj.saturation
  , .sepia (if adj.temperature > 0 then adj.temperature else 0)
  , .hueRotate (if adj.temperature < 0 then adj.temperature * 1.5 else 0) ]

/-- Gradient data of the export vignette: alpha of the color stop at
radius-fraction 0 and alpha of the black color stop at radius-fraction 1
(App.js lines 136-137; `transparent` carries alpha 0). -/
structure VignetteGradient where
  innerAlpha : ℚ
  outerAlpha : ℚ
deriving DecidableEq, Repr

/-- App.js lines 129-141: the export bakes a vignette gradient only when
`adj.vignette > 0`; its stops are `transparent` at 0 and
`rgba(0,0,0,min(v/100,0.85))` at 1. -/
def exportVignetteGradient (v : ℚ) : Option VignetteGradient :=
  if v > 0 then some { innerAlpha := 0, outerAlpha := min (v / 100) 0.85 } else none

/-- Live-preview vignette overlay style (App.js line 218): a radial
gradient that is transparent up to `max(0, 60 - v/2)` percent and reaches
`rgba(0,0,0,min(v/100,0.85))` at 100 percent. -/
structure PreviewOverlay where
  innerStopPct : ℚ
  outerAlpha : ℚ
deriving DecidableEq, Repr

/-- App.js line 218: the gradient parameters of the preview overlay div. -/
def previewVignetteOverlay (v : ℚ) : PreviewOverlay :=
  { innerStopPct := max 0 (60 - v / 2), outerAlpha := min (v / 100) 0.85 }

/-- App.js line 217: the JSX renders the `vignette-overlay` div
unconditionally, for every vignette value, styling it with the gradient of
`previewVignetteOverlay`. -/
def previewOverlayRendered (v : ℚ) : Option PreviewOverlay :=
  some (previewVignetteOverlay v)

/-- App.js line 133: the raw vignette radius
`sqrt(centerX^2 + centerY^2) * (1.2 - adj.vignette / 100)` where
`centerX = W/2` and `centerY = H/2` are half the export canvas dimensions. -/
noncomputable def vignetteRadius (W H v : ℚ) : ℝ :=
  Real.sqrt (((W : ℝ) / 2) ^ 2 + ((H : ℝ) / 2) ^ 2) * (1.2 - (v : ℝ) / 100)

/-- App.js line 135: the outer radius actually passed to
`createRadialGradient` is `Math.max(1, radius)`. -/
noncomputable def vignetteOuterRadius (W H v : ℚ) : ℝ :=
  max 1 (vignetteRadius W H v)

/-- Opaque encoded image blob, as delivered to the `toBlob` callback. -/
structure Blob where
  data : ℕ
deriving DecidableEq, Repr

/-- Observable browser effects that `handleExport` can perform after
drawing: logging an error, creating an object URL, clicking the
synthesized download link, and revoking the URL. -/
inductive Effect where
  | consoleError (msg : String)
  | createObjectURL
  | clickDownload
  | revokeObjectURL
deriving DecidableEq, Repr

/-- App.js lines 144-152: the `toBlob` callback.  A `null` blob returns
immediately with no effect; otherwise an object URL is created, the
download link is clicked, and the URL is revoked. -/
def blobCallback (blob : Option Blob) : List Effect :=
  match blob with
  | none => []
  | some _ => [.createObjectURL, .clickDownload, .revokeObjectURL]

/-- Off-screen canvas backing the export.  The `id` field tracks object
identity so that reuse of the same DOM canvas across calls is observable
in the model; `width`/`height` are the buffer dimensions. -/
structure Canvas where
  id : ℕ
  width : ℤ
  height : ℤ
deriving DecidableEq, Repr

/-- Inputs and environment of one `handleExport` call: the current image
and canvas refs, the committed crop and adjustments, the outcome of the
`ctx.drawImage` call (which may throw), and the blob the browser passes to
the `toBlob` callback. -/
structure ExportEnv where
  image : Option ImageHandle
  canvas : Option Canvas
  completedCrop : Option CropRect
  adj : AdjustmentSet
  drawResult : Except String Unit
  blobResult : Option Blob

/-- Observable outcome of one `handleExport` call: the canvas after the
call (None when the call returned early for a missing ref), whether an
exception escaped the function, and the effects performed. -/
structure ExportOutcome where
  canvas : Option Canvas
  exceptionPropagated : Bool
  effects : List Effect
deriving DecidableEq, Repr

/-- App.js lines 120-152: the body of the `try` block.  The draw step may
fail (propagating its exception to the `catch`); only if it succeeds does
the vignette bake run and `toBlob` start encoding. -/
def exportTryBlock (env : ExportEnv) : Except String (List Effect) :=
  match env.drawResult with
  | .error e => .error e
  | .ok _ => .ok (blobCallback env.blobResult)

/-- App.js lines 90-157: `handleExport`.  Returns early when the image or
canvas ref is missing; otherwise resizes the persistent download canvas to
the floored resolved source region and runs the try/catch around draw,
vignette and encode.  A failure inside the `try` is caught and logged as
"Export failed", so no exception ever propagates. -/
def handleExport (env : ExportEnv) : ExportOutcome :=
  match env.image, env.canvas with
  | some image, some canvas =>
      let canvas' : Canvas :=
        { canvas with
            width := exportCanvasWidth image env.completedCrop
            height := exportCanvasHeight image env.completedCrop }
      match exportTryBlock env with
      | .error msg =>
          { canvas := some canvas'
            exceptionPropagated := false
            effects := [.consoleError ("Export failed: " ++ msg)] }
      | .ok effs =>
          { canvas := some canvas'
            exceptionPropagated := false
            effects := effs }
  | _, _ => { canvas := env.canvas, exceptionPropagated := false, effects := [] }

/-!
Theorems settling the claims.
-/

/-- C1: for every valid committed crop (width>0, height>0) in
displayed-pixel units, the export resolves the source region by
multiplying each crop field by the per-axis scale factor
natural/displayed, floors the resulting width and height for the buffer
dimensions, and on natural 4000x3000, displayed 800x600,
crop (100,100,200,150) resolves to (500,500,1000,750). -/
theorem export_region_scaling (image : ImageHandle) (c : CropRect)
    (hw : 0 < c.width) (hh : 0 < c.height) :
    resolveSourceRegion image (some c) =
      { x := c.x * (image.naturalWidth / image.width)
        y := c.y * (image.naturalHeight / image.height)
        width := c.width * (image.naturalWidth / image.width)
        height := c.height * (image.naturalHeight / image.height) }
    ∧ exportCanvasWidth image (some c) =
        ⌊c.width * (image.naturalWidth / image.width)⌋
    ∧ exportCanvasHeight image (some c) =
        ⌊c.height * (image.naturalHeight / image.height)⌋
    ∧ resolveSourceRegion ⟨4000, 3000, 800, 600⟩ (some ⟨100, 100, 200, 150, "px"⟩) =
        ⟨500, 500, 1000, 750⟩ := by
  have hv : isCropValid (some c) = true := by
    simp [isCropValid, hw, hh]
  refine ⟨?_, ?_, ?_, by norm_num [resolveSourceRegion, isCropValid, scaleX, scaleY]⟩
  · simp [resolveSourceRegion, hv, scaleX, scaleY]
  · simp [exportCanvasWidth, resolveSourceRegion, hv, scaleX]
  · simp [exportCanvasHeight, resolveSourceRegion, hv, scaleY]

/-- Witness for C1 at the spec's own concrete example. -/
theorem export_region_scaling_witness :
    (0 : ℚ) < 200 ∧ (0 : ℚ) < 150 ∧
    (resolveSourceRegion ⟨4000, 3000, 800, 600⟩ (some ⟨100, 100, 200, 150, "px"⟩) =
      { x := 100 * ((4000 : ℚ) / 800), y := 100 * ((3000 : ℚ) / 600)
        width := 200 * ((4000 : ℚ) / 800), height := 150 * ((3000 : ℚ) / 600) }
    ∧ exportCanvasWidth ⟨4000, 3000, 800, 600⟩ (some ⟨100, 100, 200, 150, "px"⟩) =
        ⌊(200 : ℚ) * ((4000 : ℚ) / 800)⌋
    ∧ exportCanvasHeight ⟨4000, 3000, 800, 600⟩ (some ⟨100, 100, 200, 150, "px"⟩) =
        ⌊(150 : ℚ) * ((3000 : ℚ) / 600)⌋
    ∧ resolveSourceRegion ⟨4000, 3000, 800, 600⟩ (some ⟨100, 100, 200, 150, "px"⟩) =
        ⟨500, 500, 1000, 750⟩) :=
  ⟨by decide, by decide,
    export_region_scaling ⟨4000, 3000, 800, 600⟩ ⟨100, 100, 200, 150, "px"⟩
      (by decide) (by decide)⟩

/-- C2: an absent crop, or one with non-positive width or height, resolves
to the entire natural image, and this path produces no error effect:
exports with such a crop run the normal path (no consoleError is ever
emitted when the draw succeeds). -/
theorem invalid_crop_exports_full_image (image : ImageHandle) (c : CropRect)
    (h : c.width ≤ 0 ∨ c.height ≤ 0) :
    resolveSourceRegion image none =
      { x := 0, y := 0, width := image.naturalWidth, height := image.naturalHeight }
    ∧ resolveSourceRegion image (some c) =
      { x := 0, y := 0, width := image.naturalWidth, height := image.naturalHeight }
    ∧ (∀ env : ExportEnv,
        (env.completedCrop = none ∨ env.completedCrop = some c) →
        env.drawResult = Except.ok () →
        ∀ msg, Effect.consoleError msg ∉ (handleExport env).effects) := by
  have hv : isCropValid (some c) = false := by
    rcases h with h | h
    · simp [isCropValid]
      intro hw
      exact absurd hw (not_lt.mpr h)
    · simp [isCropValid]
      intro _
      exact h
  refine ⟨by simp [resolveSourceRegion, isCropValid], by simp [resolveSourceRegion, hv], ?_⟩
  intro env _ hd msg
  match himg : env.image, hcv : env.canvas with
  | some img, some cv =>
      simp [handleExport, himg, hcv, exportTryBlock, hd, blobCallback]
      match env.blobResult with
      | none => simp
      | some b => simp
  | some _, none => simp [handleExport, himg, hcv]
  | none, some _ => simp [handleExport, himg, hcv]
  | none, none => simp [handleExport, himg, hcv]

/-- Witness for C2 at a crop of zero width. -/
theorem invalid_crop_exports_full_image_witness :
    ((0 : ℚ) ≤ 0 ∨ (100 : ℚ) ≤ 0) ∧
    (resolveSourceRegion ⟨4000, 3000, 800, 600⟩ none =
      { x := 0, y := 0, width := 4000, height := 3000 }
    ∧ resolveSourceRegion ⟨4000, 3000, 800, 600⟩ (some ⟨10, 10, 0, 100, "px"⟩) =
      { x := 0, y := 0, width := 4000, height := 3000 }
    ∧ (∀ env : ExportEnv,
        (env.completedCrop = none ∨ env.completedCrop = some ⟨10, 10, 0, 100, "px"⟩) →
        env.drawResult = Except.ok () →
        ∀ msg, Effect.consoleError msg ∉ (handleExport env).effects)) :=
  ⟨Or.inl (by decide),
    invalid_crop_exports_full_image ⟨4000, 3000, 800, 600⟩ ⟨10, 10, 0, 100, "px"⟩
      (Or.inl (by decide))⟩

/-- C3: when the draw step fails, `handleExport` catches the failure (no
exception propagates), logs the non-fatal "Export failed" signal, and
performs no encoding or download effect. -/
theorem draw_failure_contained (env : ExportEnv) (image : ImageHandle)
    (canvas : Canvas) (msg : String)
    (hi : env.image = some image) (hc : env.canvas = some canvas)
    (hd : env.drawResult = Except.error msg) :
    (handleExport env).exceptionPropagated = false
    ∧ (handleExport env).effects = [Effect.consoleError ("Export failed: " ++ msg)]
    ∧ Effect.createObjectURL ∉ (handleExport env).effects
    ∧ Effect.clickDownload ∉ (handleExport env).effects := by
  simp [handleExport, hi, hc, exportTryBlock, hd]

/-- Witness for C3 at a concrete environment whose draw throws. -/
theorem draw_failure_contained_witness :
    ({ image := some ⟨4000, 3000, 800, 600⟩
       canvas := some ⟨1, 10, 10⟩
       completedCrop := none
       adj := ⟨100, 100, 100, 0, 0⟩
       drawResult := Except.error "boom"
       blobResult := some ⟨0⟩ } : ExportEnv).image = some ⟨4000, 3000, 800, 600⟩
    ∧ ({ image := some ⟨4000, 3000, 800, 600⟩
         canvas := some ⟨1, 10, 10⟩
         completedCrop := none
         adj := ⟨100, 100, 100, 0, 0⟩
         drawResult := Except.error "boom"
         blobResult := some ⟨0⟩ } : ExportEnv).canvas = some ⟨1, 10, 10⟩
    ∧ ({ image := some ⟨4000, 3000, 800, 600⟩
         canvas := some ⟨1, 10, 10⟩
         completedCrop := none
         adj := ⟨100, 100, 100, 0, 0⟩
         drawResult := Except.error "boom"
         blobResult := some ⟨0⟩ } : ExportEnv).drawResult = Except.error "boom"
    ∧ ((handleExport
        { image := some ⟨4000, 3000, 800, 600⟩
          canvas := some ⟨1, 10, 10⟩
          completedCrop := none
          adj := ⟨100, 100, 100, 0, 0⟩
          drawResult := Except.error "boom"
          blobResult := some ⟨0⟩ }).exceptionPropagated = false
      ∧ (handleExport
        { image := some ⟨4000, 3000, 800, 600⟩
          canvas := some ⟨1, 10, 10⟩
          completedCrop := none
          adj := ⟨100, 100, 100, 0, 0⟩
          drawResult := Except.error "boom"
          blobResult := some ⟨0⟩ }).effects =
            [Effect.consoleError ("Export failed: " ++ "boom")]
      ∧ Effect.createObjectURL ∉ (handleExport
        { image := some ⟨4000, 3000, 800, 600⟩
          canvas := some ⟨1, 10, 10⟩
          completedCrop := none
          adj := ⟨100, 100, 100, 0, 0⟩
          drawResult := Except.error "boom"
          blobResult := some ⟨0⟩ }).effects
      ∧ Effect.clickDownload ∉ (handleExport
        { image := some ⟨4000, 3000, 800, 600⟩
          canvas := some ⟨1, 10, 10⟩
          completedCrop := none
          adj := ⟨100, 100, 100, 0, 0⟩
          drawResult := Except.error "boom"
          blobResult := some ⟨0⟩ }).effects) :=
  ⟨rfl, rfl, rfl,
    draw_failure_contained _ ⟨4000, 3000, 800, 600⟩ ⟨1, 10, 10⟩ "boom" rfl rfl rfl⟩

/-- C4: the compiled temperature decomposition: warm values go entirely to
the sepia component, cool values entirely to the hue-rotate component with
the 1.5 multiplier, zero yields the identity on both. -/
theorem temperature_decomposition_exact (adj : AdjustmentSet)
    (_h1 : -100 ≤ adj.temperature) (_h2 : adj.temperature ≤ 100) :
    (0 < adj.temperature →
      exportSepia adj = adj.temperature ∧ exportHue adj = 0)
    ∧ (adj.temperature < 0 →
      exportHue adj = adj.temperature * 1.5 ∧ exportSepia adj = 0)
    ∧ (adj.temperature = 0 →
      exportSepia adj = 0 ∧ exportHue adj = 0) := by
  refine ⟨fun ht => ⟨?_, ?_⟩, fun ht => ⟨?_, ?_⟩, fun ht => ⟨?_, ?_⟩⟩
  · simp [exportSepia, ht]
  · simp [exportHue, not_lt.mpr (le_of_lt ht)]
  · simp [exportHue, ht]
  · simp [exportSepia, not_lt.mpr (le_of_lt ht)]
  · simp [exportSepia, ht]
  · simp [exportHue, ht]

/-- Witness for C4 at temperature -40. -/
theorem temperature_decomposition_exact_witness :
    (-100 : ℚ) ≤ -40 ∧ (-40 : ℚ) ≤ 100 ∧
    ((0 < (⟨100, 100, 100, -40, 0⟩ : AdjustmentSet).temperature →
      exportSepia ⟨100, 100, 100, -40, 0⟩ = (⟨100, 100, 100, -40, 0⟩ : AdjustmentSet).temperature
      ∧ exportHue ⟨100, 100, 100, -40, 0⟩ = 0)
    ∧ ((⟨100, 100, 100, -40, 0⟩ : AdjustmentSet).temperature < 0 →
      exportHue ⟨100, 100, 100, -40, 0⟩ =
        (⟨100, 100, 100, -40, 0⟩ : AdjustmentSet).temperature * 1.5
      ∧ exportSepia ⟨100, 100, 100, -40, 0⟩ = 0)
    ∧ ((⟨100, 100, 100, -40, 0⟩ : AdjustmentSet).temperature = 0 →
      exportSepia ⟨100, 100, 100, -40, 0⟩ = 0 ∧ exportHue ⟨100, 100, 100, -40, 0⟩ = 0)) :=
  ⟨by decide, by decide,
    temperature_decomposition_exact ⟨100, 100, 100, -40, 0⟩ (by decide) (by decide)⟩

/-- C5: the ordered filter expression applied to the live preview image
element and the one applied when drawing the export are identical for
every adjustment set. -/
theorem preview_export_filter_identical (adj : AdjustmentSet) :
    previewFilter adj = exportFilter adj := by
  simp [previewFilter, exportFilter, exportSepia, exportHue]

/-- C10: when the `toBlob` callback receives no blob, the export completes
silently: no object URL, no download click, no URL revocation, no logged
error, and no exception. -/
theorem null_blob_silent (env : ExportEnv)
    (hd : env.drawResult = Except.ok ()) (hb : env.blobResult = none) :
    blobCallback env.blobResult = []
    ∧ (handleExport env).effects = []
    ∧ (handleExport env).exceptionPropagated = false := by
  refine ⟨by simp [blobCallback, hb], ?_, ?_⟩
  · match himg : env.image, hcv : env.canvas with
    | some img, some cv => simp [handleExport, himg, hcv, exportTryBlock, hd, blobCallback, hb]
    | some _, none => simp [handleExport, himg, hcv]
    | none, some _ => simp [handleExport, himg, hcv]
    | none, none => simp [handleExport, himg, hcv]
  · match himg : env.image, hcv : env.canvas with
    | some img, some cv => simp [handleExport, himg, hcv, exportTryBlock, hd, blobCallback, hb]
    | some _, none => simp [handleExport, himg, hcv]
    | none, some _ => simp [handleExport, himg, hcv]
    | none, none => simp [handleExport, himg, hcv]

/-- Witness for C10 at a concrete environment whose encoder yields null. -/
theorem null_blob_silent_witness :
    ({ image := some ⟨4000, 3000, 800, 600⟩
       canvas := some ⟨1, 10, 10⟩
       completedCrop := none
       adj := ⟨100, 100, 100, 0, 0⟩
       drawResult := Except.ok ()
       blobResult := none } : ExportEnv).drawResult = Except.ok ()
    ∧ ({ image := some ⟨4000, 3000, 800, 600⟩
         canvas := some ⟨1, 10, 10⟩
         completedCrop := none
         adj := ⟨100, 100, 100, 0, 0⟩
         drawResult := Except.ok ()
         blobResult := none } : ExportEnv).blobResult = none
    ∧ (blobCallback none = []
      ∧ (handleExport
        { image := some ⟨4000, 3000, 800, 600⟩
          canvas := some ⟨1, 10, 10⟩
          completedCrop := none
          adj := ⟨100, 100, 100, 0, 0⟩
          drawResult := Except.ok ()
          blobResult := none }).effects = []
      ∧ (handleExport
        { image := some ⟨4000, 3000, 800, 600⟩
          canvas := some ⟨1, 10, 10⟩
          completedCrop := none
          adj := ⟨100, 100, 100, 0, 0⟩
          drawResult := Except.ok ()
          blobResult := none }).exceptionPropagated = false) :=
  ⟨rfl, rfl,
    null_blob_silent
      { image := some ⟨4000, 3000, 800, 600⟩
        canvas := some ⟨1, 10, 10⟩
        completedCrop := none
        adj := ⟨100, 100, 100, 0, 0⟩
        drawResult := Except.ok ()
        blobResult := none } rfl rfl⟩

/-- C6 counterexample: at vignette 0 the claim says no overlay is produced
at all in either path, but the live preview renders the `vignette-overlay`
div unconditionally (App.js line 217); at v = 0 the rendered overlay is
merely fully transparent (inner stop 60, outer alpha 0), not absent. -/
theorem preview_overlay_rendered_at_zero :
    previewOverlayRendered 0 ≠ none
    ∧ previewOverlayRendered 0 = some { innerStopPct := 60, outerAlpha := 0 } := by
  constructor
  · simp [previewOverlayRendered]
  · norm_num [previewOverlayRendered, previewVignetteOverlay]

/-- C6 amended: for every v in [0,200], the export vignette gradient (when
baked, i.e. v > 0) is transparent at its inner stop and black with alpha
min(v/100, 0.85) at its outer stop, and for v = 0 the export bakes no
overlay; the preview overlay's outer-stop alpha equals the same
min(v/100, 0.85), which is 0 at v = 0 (a visual no-op, though the overlay
element itself is still rendered). -/
theorem vignette_gradient_stops (v : ℚ) (h0 : 0 ≤ v) (h2 : v ≤ 200) :
    (0 < v → exportVignetteGradient v =
      some { innerAlpha := 0, outerAlpha := min (v / 100) 0.85 })
    ∧ (v = 0 → exportVignetteGradient v = none)
    ∧ (previewVignetteOverlay v).outerAlpha = min (v / 100) 0.85
    ∧ (v = 0 → (previewVignetteOverlay v).outerAlpha = 0) := by
  refine ⟨fun hv => by simp [exportVignetteGradient, hv], ?_, rfl, ?_⟩
  · intro hv
    simp [exportVignetteGradient, hv]
  · intro hv
    subst hv
    norm_num [previewVignetteOverlay]

/-- Witness for C6's amended statement at vignette 150, past the alpha cap. -/
theorem vignette_gradient_stops_witness :
    (0 : ℚ) ≤ 150 ∧ (150 : ℚ) ≤ 200 ∧
    ((0 < (150 : ℚ) → exportVignetteGradient 150 =
      some { innerAlpha := 0, outerAlpha := min ((150 : ℚ) / 100) 0.85 })
    ∧ ((150 : ℚ) = 0 → exportVignetteGradient 150 = none)
    ∧ (previewVignetteOverlay 150).outerAlpha = min ((150 : ℚ) / 100) 0.85
    ∧ ((150 : ℚ) = 0 → (previewVignetteOverlay 150).outerAlpha = 0)) :=
  ⟨by decide, by decide, vignette_gradient_stops 150 (by decide) (by decide)⟩

/-- C7: the outer radius handed to `createRadialGradient` is
`max(1, sqrt((W/2)^2 + (H/2)^2) * (1.2 - v/100))`, hence strictly
positive for every intensity in [0,200], including v > 120 where the raw
formula is non-positive. -/
theorem vignette_outer_radius_positive (W H v : ℚ)
    (_h0 : 0 ≤ v) (_h2 : v ≤ 200) :
    vignetteOuterRadius W H v =
      max 1 (Real.sqrt (((W : ℝ) / 2) ^ 2 + ((H : ℝ) / 2) ^ 2) * (1.2 - (v : ℝ) / 100))
    ∧ 0 < vignetteOuterRadius W H v := by
  refine ⟨rfl, ?_⟩
  have h1 : (1 : ℝ) ≤ vignetteOuterRadius W H v := le_max_left _ _
  linarith

/-- Witness for C7 at an 800x600 target and maximum intensity 200, where
the raw radius formula is negative. -/
theorem vignette_outer_radius_positive_witness :
    (0 : ℚ) ≤ 200 ∧ (200 : ℚ) ≤ 200 ∧
    (vignetteOuterRadius 800 600 200 =
      max 1 (Real.sqrt ((((800 : ℚ) : ℝ) / 2) ^ 2 + (((600 : ℚ) : ℝ) / 2) ^ 2) *
        (1.2 - ((200 : ℚ) : ℝ) / 100))
    ∧ 0 < vignetteOuterRadius 800 600 200) := by
  refine ⟨by decide, by decide, ?_⟩
  exact vignette_outer_radius_positive 800 600 200 (by decide) (by decide)

/-- C8 counterexample: two successive exports write into the same
persistent download canvas.  Starting from the canvas with identity 7, a
first export (with a committed 200x150 crop at displayed scale 5) resizes
that same canvas to 1000x750, and a second export (full image) resizes
the very same canvas object (identity still 7) to 4000x3000 — the buffer
is reused across exports, not created fresh per call. -/
theorem export_canvas_reused :
    (handleExport
      { image := some ⟨4000, 3000, 800, 600⟩
        canvas := (handleExport
          { image := some ⟨4000, 3000, 800, 600⟩
            canvas := some ⟨7, 123, 456⟩
            completedCrop := some ⟨100, 100, 200, 150, "px"⟩
            adj := ⟨100, 100, 100, 0, 0⟩
            drawResult := Except.ok ()
            blobResult := some ⟨0⟩ }).canvas
        completedCrop := none
        adj := ⟨100, 100, 100, 0, 0⟩
        drawResult := Except.ok ()
        blobResult := some ⟨1⟩ }).canvas = some ⟨7, 4000, 3000⟩ := by
  norm_num [handleExport, exportTryBlock, blobCallback, exportCanvasWidth,
    exportCanvasHeight, resolveSourceRegion, isCropValid, scaleX, scaleY]

/-- C8 amended: each export sizes the buffer exactly to the floored
resolved source region in natural pixels, but the buffer is the single
persistent download canvas resized in place: its identity is preserved
across export calls rather than a fresh buffer being allocated per call. -/
theorem export_canvas_resized_in_place (env : ExportEnv) (image : ImageHandle)
    (canvas : Canvas)
    (hi : env.image = some image) (hc : env.canvas = some canvas) :
    (handleExport env).canvas = some
      { id := canvas.id
        width := exportCanvasWidth image env.completedCrop
        height := exportCanvasHeight image env.completedCrop } := by
  match hr : exportTryBlock env with
  | .error msg => simp [handleExport, hi, hc, hr]
  | .ok effs => simp [handleExport, hi, hc, hr]

/-- Witness for C8's amended statement. -/
theorem export_canvas_resized_in_place_witness :
    ({ image := some ⟨4000, 3000, 800, 600⟩
       canvas := some ⟨7, 123, 456⟩
       completedCrop := none
       adj := ⟨100, 100, 100, 0, 0⟩
       drawResult := Except.ok ()
       blobResult := some ⟨0⟩ } : ExportEnv).image = some ⟨4000, 3000, 800, 600⟩
    ∧ ({ image := some ⟨4000, 3000, 800, 600⟩
         canvas := some ⟨7, 123, 456⟩
         completedCrop := none
         adj := ⟨100, 100, 100, 0, 0⟩
         drawResult := Except.ok ()
         blobResult := some ⟨0⟩ } : ExportEnv).canvas = some ⟨7, 123, 456⟩
    ∧ (handleExport
        { image := some ⟨4000, 3000, 800, 600⟩
          canvas := some ⟨7, 123, 456⟩
          completedCrop := none
          adj := ⟨100, 100, 100, 0, 0⟩
          drawResult := Except.ok ()
          blobResult := some ⟨0⟩ }).canvas = some
        { id := (7 : ℕ)
          width := exportCanvasWidth ⟨4000, 3000, 800, 600⟩ none
          height := exportCanvasHeight ⟨4000, 3000, 800, 600⟩ none } :=
  ⟨rfl, rfl,
    export_canvas_resized_in_place
      { image := some ⟨4000, 3000, 800, 600⟩
        canvas := some ⟨7, 123, 456⟩
        completedCrop := none
        adj := ⟨100, 100, 100, 0, 0⟩
        drawResult := Except.ok ()
        blobResult := some ⟨0⟩ } ⟨4000, 3000, 800, 600⟩ ⟨7, 123, 456⟩ rfl rfl⟩

/-- App.js line 46: the crop template installed on image load is built
with percent units (`makeAspectCrop({ unit: "%", width: 100 }, ...)`). -/
def onImageLoadCropUnit : String := "%"

/-- App.js line 81: the crop template installed on an aspect-preset change
is likewise built with percent units (`{ unit: "%", width: 90 }`). -/
def handleAspectChangeCropUnit : String := "%"

/-- C9: the source-region computation never reads the crop's unit field
(changing the unit changes nothing), image load and aspect-preset changes
install percent-unit crops, and a percent-unit crop consequently has its
percent values multiplied by the pixel scale factors exactly as if they
were displayed-pixel values. -/
theorem crop_unit_ignored (image : ImageHandle) (c : CropRect) (u : String)
    (hw : 0 < c.width) (hh : 0 < c.height) :
    resolveSourceRegion image (some { c with unit := u }) =
      resolveSourceRegion image (some c)
    ∧ onImageLoadCropUnit = "%"
    ∧ handleAspectChangeCropUnit = "%"
    ∧ (c.unit = "%" →
        resolveSourceRegion image (some c) =
          { x := c.x * scaleX image, y := c.y * scaleY image
            width := c.width * scaleX image, height := c.height * scaleY image }) := by
  have hv : isCropValid (some c) = true := by
    simp [isCropValid, hw, hh]
  have hv' : isCropValid (some { c with unit := u }) = true := by
    simp [isCropValid, hw, hh]
  refine ⟨?_, rfl, rfl, ?_⟩
  · simp [resolveSourceRegion, hv, hv']
  · intro _
    simp [resolveSourceRegion, hv]

/-- Witness for C9 at the percent-unit crop shape installed on image load
(full-width 100 percent), showing the percent values scaled as pixels. -/
theorem crop_unit_ignored_witness :
    (0 : ℚ) < 100 ∧ (0 : ℚ) < 75 ∧
    (resolveSourceRegion ⟨4000, 3000, 800, 600⟩
        (some { x := 0, y := 0, width := 100, height := 75, unit := "px" }) =
      resolveSourceRegion ⟨4000, 3000, 800, 600⟩ (some ⟨0, 0, 100, 75, "%"⟩)
    ∧ onImageLoadCropUnit = "%"
    ∧ handleAspectChangeCropUnit = "%"
    ∧ ((⟨0, 0, 100, 75, "%"⟩ : CropRect).unit = "%" →
        resolveSourceRegion ⟨4000, 3000, 800, 600⟩ (some ⟨0, 0, 100, 75, "%"⟩) =
          { x := 0 * scaleX ⟨4000, 3000, 800, 600⟩
            y := 0 * scaleY ⟨4000, 3000, 800, 600⟩
            width := 100 * scaleX ⟨4000, 3000, 800, 600⟩
            height := 75 * scaleY ⟨4000, 3000, 800, 600⟩ })) :=
  ⟨by decide, by decide,
    crop_unit_ignored ⟨4000, 3000, 800, 600⟩ ⟨0, 0, 100, 75, "%"⟩ "px"
      (by decide) (by decide)⟩

end VisionCut
